import Mathlib

set_option maxRecDepth 200000

/-!
Shallow embedding of the BTO recommendation analytics core
(`services/recommendation.py`) and proofs of its specified properties.

Conventions of the embedding:
* a pandas DataFrame of transaction records is a `List Record`;
* float arithmetic is idealised as exact rational arithmetic (`ℚ`);
* Python `round` / numpy `.round(2)` (round half to even) are modelled by
  `roundHalfEven` / `round2`;
* pandas `groupby` (which sorts group keys ascending) is modelled by
  sorting the deduplicated keys; `sort_values` on several columns and
  Python `list.sort(reverse=True)` are stable sorts, modelled by
  `List.insertionSort` with a non-strict "greater or equal" relation
  (stable sorts by the same total preorder agree on every input);
* `None` results and absent dict keys are `Option`.
-/

namespace BTO

/-!
The standard rational operations of this toolchain (`Rat.add`,
`Rat.mul`, `Rat.inv`, ...) are `@[irreducible]`, so closed terms built
from them cannot be evaluated by `decide`. The embedding therefore
computes with the following kernel-reducible equivalents, defined
through `mkRat` on numerators and denominators; the `..._eq` theorems
below identify each with the corresponding standard operation, and
spec-facing theorem statements use the standard operations.
-/

/-- Addition on `ℚ`, kernel-reducible. -/
def qadd (a b : ℚ) : ℚ := mkRat (a.num * b.den + b.num * a.den) (a.den * b.den)

/-- Subtraction on `ℚ`, kernel-reducible. -/
def qsub (a b : ℚ) : ℚ := mkRat (a.num * b.den - b.num * a.den) (a.den * b.den)

/-- Multiplication on `ℚ`, kernel-reducible. -/
def qmul (a b : ℚ) : ℚ := mkRat (a.num * b.num) (a.den * b.den)

/-- Division on `ℚ` (with `a / 0 = 0`), kernel-reducible. -/
def qdiv (a b : ℚ) : ℚ :=
  mkRat (if 0 ≤ b.num then a.num * b.den else -(a.num * b.den)) (a.den * b.num.natAbs)

/-- Sum of a list of rationals, kernel-reducible. -/
def qsum (l : List ℚ) : ℚ := l.foldr qadd 0

/-- Floor of a rational: floor division of the numerator by the
(positive) denominator. -/
def qfloor (x : ℚ) : ℤ := Int.fdiv x.num x.den

/-- Round half to even (Python `round`, numpy `rint`): nearest integer,
ties going to the even neighbour. -/
def roundHalfEven (x : ℚ) : ℤ :=
  let n := qfloor x
  let r := qsub x (n : ℚ)
  if r < mkRat 1 2 then n
  else if mkRat 1 2 < r then n + 1
  else if n % 2 = 0 then n else n + 1

/-- Rounding to two decimal places, half to even (pandas `.round(2)`,
Python `round(x, 2)`). -/
def round2 (x : ℚ) : ℚ := qdiv (roundHalfEven (qmul x 100) : ℚ) 100

/-- Python `int()` on a float: truncation toward zero, which on an exact
rational is truncating division of the numerator by the denominator. -/
def ratTrunc (x : ℚ) : ℤ := x.num / x.den

/-- pandas `Series.median`: sort, take the middle element for odd length,
the mean of the two middle elements for even length. -/
def median (l : List ℚ) : ℚ :=
  let s := l.insertionSort (· ≤ ·)
  if s.length % 2 = 1 then s.getD (s.length / 2) 0
  else qdiv (qadd (s.getD (s.length / 2 - 1) 0) (s.getD (s.length / 2) 0)) 2

/-- Maximum of a list with a default for the empty list (groups are
always non-empty where this is used). -/
def listMax {α : Type} [LinearOrder α] (d : α) : List α → α
  | [] => d
  | x :: xs => xs.foldl max x

/-- Minimum of a list with a default for the empty list. -/
def listMin {α : Type} [LinearOrder α] (d : α) : List α → α
  | [] => d
  | x :: xs => xs.foldl min x

/-- One cleaned transaction record: a row of the loaded table after
preprocessing (`transaction_year` already derived from `month`). -/
structure Record where
  month : String
  town : String
  flat_type : String
  resale_price : ℚ
  lease_commence_date : ℤ
  floor_area_sqm : ℚ
  transaction_year : ℤ
deriving DecidableEq, Repr

/-- Constant `CURRENT_YEAR = 2025`. -/
def CURRENT_YEAR : ℤ := 2025

/-- Constant `MIN_YEARS_SINCE_LAUNCH = 5`. -/
def MIN_YEARS_SINCE_LAUNCH : ℤ := 5

/-- Constant `BTO_DISCOUNT_RATE = 0.2`. -/
def BTO_DISCOUNT_RATE : ℚ := mkRat 1 5

/-- The rows of one `groupby('town')` group. -/
def townGroup (df : List Record) (t : String) : List Record :=
  df.filter (fun r => r.town == t)

/-- The group keys of `df.groupby('town')`: distinct towns, in ascending
order (pandas sorts group keys by default). -/
def townKeys (df : List Record) : List String :=
  ((df.map Record.town).dedup).insertionSort (· ≤ ·)

/-- One row of `town_stats` in `analyze_bto_gaps`: the aggregates of one
town group together with the derived `years_since_last_major_launch`
column. -/
structure TownStat where
  town : String
  max_lease_year : ℤ
  total_transactions : ℕ
  recent_transactions : ℕ
  avg_price : ℚ
  years_since_last_major_launch : ℤ
deriving DecidableEq, Repr

/-- The aggregation row of one town group: `max` of
`lease_commence_date`, `count` and `sum(x >= 2022)` of
`transaction_year`, `mean` of `resale_price` (the `.round(2)` applied to
the aggregated frame only affects the float mean column), and the
derived gap `CURRENT_YEAR - max_lease_year`. -/
def summarize (df : List Record) (t : String) : TownStat :=
  let g := townGroup df t
  let maxLease := listMax 0 (g.map Record.lease_commence_date)
  { town := t
    max_lease_year := maxLease
    total_transactions := g.length
    recent_transactions := g.countP (fun r => decide (2022 ≤ r.transaction_year))
    avg_price := round2 (if g.length = 0 then 0 else qdiv (qsum (g.map Record.resale_price)) (g.length : ℚ))
    years_since_last_major_launch := CURRENT_YEAR - maxLease }

/-- `town_stats` after `reset_index()`: one summary per town, in group
key order. -/
def town_stats (df : List Record) : List TownStat :=
  (townKeys df).map (summarize df)

/-- The two sort columns of `qualified_towns.sort_values(...)`. -/
def statKey (s : TownStat) : ℤ × ℤ :=
  (s.years_since_last_major_launch, (s.recent_transactions : ℤ))

/-- Lexicographic order on the pair of sort columns. -/
def lexLE (p q : ℤ × ℤ) : Prop := p.1 < q.1 ∨ (p.1 = q.1 ∧ p.2 ≤ q.2)

instance (p q : ℤ × ℤ) : Decidable (lexLE p q) :=
  inferInstanceAs (Decidable (p.1 < q.1 ∨ (p.1 = q.1 ∧ p.2 ≤ q.2)))

/-- Row `a` sorts no later than row `b` under
`sort_values(['years_since_last_major_launch', 'recent_transactions'],
ascending=[False, False])`: `b`'s key is lexicographically at most
`a`'s. -/
def statGE (a b : TownStat) : Prop := lexLE (statKey b) (statKey a)

instance : DecidableRel statGE :=
  fun a b => inferInstanceAs (Decidable (lexLE (statKey b) (statKey a)))

instance : IsTotal TownStat statGE :=
  ⟨by intro a b; unfold statGE lexLE; omega⟩

instance : IsTrans TownStat statGE :=
  ⟨by intro a b c; unfold statGE lexLE; omega⟩

/-- The filter `(total_transactions > 100) & (years_since_last_major_launch
>= MIN_YEARS_SINCE_LAUNCH)` applied to `town_stats`. -/
def qualified_towns (df : List Record) : List TownStat :=
  (town_stats df).filter
    (fun s => decide (100 < s.total_transactions) &&
      decide (MIN_YEARS_SINCE_LAUNCH ≤ s.years_since_last_major_launch))

/-- The qualified rows after the descending two-column stable sort. -/
def sortedQualified (df : List Record) : List TownStat :=
  (qualified_towns df).insertionSort statGE

/-- `analyze_bto_gaps`: empty (or `None`) input short-circuits to `[]`;
otherwise group, aggregate, filter, sort and keep `head(8)`. -/
def analyze_bto_gaps (df : List Record) : List TownStat :=
  if df.isEmpty then [] else (sortedQualified df).take 8

/-- The tier-1 subset of `_calculate_single_pricing`: matching town and
flat type with `transaction_year >= 2022`. -/
def recentMatches (df : List Record) (town flat_type : String) : List Record :=
  df.filter (fun r => r.town == town && r.flat_type == flat_type &&
    decide (2022 ≤ r.transaction_year))

/-- The tier-2 subset of `_calculate_single_pricing`: matching town and
flat type, any year. -/
def allMatches (df : List Record) (town flat_type : String) : List Record :=
  df.filter (fun r => r.town == town && r.flat_type == flat_type)

/-- `_calculate_single_pricing`: median of the recent subset when it has
at least 10 rows, otherwise median of the all-time subset when non-empty,
otherwise `None`. -/
def calculate_single_pricing (df : List Record) (town flat_type : String) : Option ℚ :=
  let recent_data := recentMatches df town flat_type
  if 10 ≤ recent_data.length then some (median (recent_data.map Record.resale_price))
  else
    let all_data := allMatches df town flat_type
    if 0 < all_data.length then some (median (all_data.map Record.resale_price))
    else none

/-- The fixed flat-type set priced for each candidate town. -/
def flat_types : List String := ["3 ROOM", "4 ROOM", "5 ROOM"]

/-- Python `str.lower()`, character by character. -/
def strLower (s : String) : String := String.mk (s.data.map Char.toLower)

/-- Python `str.upper()`, character by character. -/
def strUpper (s : String) : String := String.mk (s.data.map Char.toUpper)

/-- Python `str.replace(' ', '_')`: the pattern is a single character,
so this is a character-wise substitution. -/
def replaceSpaces (s : String) : String :=
  String.mk (s.data.map (fun c => if c = ' ' then '_' else c))

/-- The pricing dict key: `flat_type.lower().replace(' ', '_')`. -/
def flatKey (ft : String) : String := replaceSpaces (strLower ft)

/-- The pricing loop of `recommend_estates`: for each flat type in order,
a truthy estimate (`if resale_price:`, so neither `None` nor `0`) adds
the entry `key ↦ round(estimate * (1 - BTO_DISCOUNT_RATE))`. -/
def pricingOf (df : List Record) (town : String) : List (String × ℤ) :=
  flat_types.filterMap (fun ft =>
    match calculate_single_pricing df town ft with
    | some p => if p ≠ 0 then some (flatKey ft, roundHalfEven (qmul p (qsub 1 BTO_DISCOUNT_RATE))) else none
    | none => none)

/-- First-encounter order of the distinct values of a column
(the index order `value_counts` starts from). -/
def uniquesInOrder (l : List String) : List String :=
  l.foldl (fun acc a => if a ∈ acc then acc else acc ++ [a]) []

/-- Descending order on counted pairs, used by `value_counts` (which
sorts by count, descending). -/
def countGE (p q : String × ℕ) : Prop := q.2 ≤ p.2

instance : DecidableRel countGE :=
  fun p q => inferInstanceAs (Decidable (q.2 ≤ p.2))

instance : IsTotal (String × ℕ) countGE :=
  ⟨by intro a b; unfold countGE; omega⟩

instance : IsTrans (String × ℕ) countGE :=
  ⟨by intro a b c; unfold countGE; omega⟩

/-- pandas `Series.value_counts()`: occurrence counts of each distinct
value, sorted by count descending. -/
def valueCounts (l : List String) : List (String × ℕ) :=
  ((uniquesInOrder l).map (fun a => (a, l.count a))).insertionSort countGE

/-- Group keys of a `groupby('flat_type')` (ascending, as pandas sorts
group keys). -/
def flatTypeKeysSorted (l : List Record) : List String :=
  ((l.map Record.flat_type).dedup).insertionSort (· ≤ ·)

/-- The dict built by `get_town_characteristics` for a present town
(`None` models the `{}` returned for an absent town or missing table). -/
structure TownCharacteristics where
  flat_type_mix : List (String × ℚ)
  typical_sizes : List (String × ℚ)
  price_ranges_min : List (String × ℚ)
  price_ranges_max : List (String × ℚ)
  price_ranges_median : List (String × ℚ)
  total_transactions : ℕ
deriving DecidableEq, Repr

/-- `get_town_characteristics`: descriptive statistics of one town's
rows; `none` models the empty dict `{}` returned when the town has no
rows. -/
def get_town_characteristics (df : List Record) (town : String) : Option TownCharacteristics :=
  let town_data := townGroup df town
  if town_data.length = 0 then none
  else
    let counts := valueCounts (town_data.map Record.flat_type)
    let n : ℚ := (town_data.length : ℚ)
    let keys := flatTypeKeysSorted town_data
    let byType := fun (ft : String) => town_data.filter (fun r => r.flat_type == ft)
    some
      { flat_type_mix := counts.map (fun p => (p.1, qdiv (p.2 : ℚ) n))
        typical_sizes := keys.map (fun ft => (ft, median ((byType ft).map Record.floor_area_sqm)))
        price_ranges_min := keys.map (fun ft => (ft, listMin 0 ((byType ft).map Record.resale_price)))
        price_ranges_max := keys.map (fun ft => (ft, listMax 0 ((byType ft).map Record.resale_price)))
        price_ranges_median := keys.map (fun ft => (ft, median ((byType ft).map Record.resale_price)))
        total_transactions := town_data.length }

/-- The `market_characteristics` sub-dict of a recommendation. -/
structure MarketChars where
  total_transactions : ℕ
  predominant_flat_types : List String
deriving DecidableEq, Repr

/-- One recommendation dict. The two fallback dicts carry fewer (and one
extra) keys than the regular entries, so the keys not common to all
shapes are `Option` fields. -/
structure Entry where
  town : String
  years_since_last_major_launch : ℤ
  demand_score : Option ℚ
  recent_market_activity : Option ℤ
  predicted_pricing : Option (List (String × ℤ))
  predicted_4room_bto_price : Option ℤ
  rationale : String
  market_characteristics : Option MarketChars
deriving DecidableEq, Repr

/-- Rationale synthesis of `recommend_estates`: clauses appended in
fixed order when their trigger holds; the affordability trigger reads
the pricing dict with default 0 (`pricing.get('4_room', 0) < 400000`),
so a missing 4-room price also triggers it. -/
def rationaleOf (years_gap recent_activity : ℤ) (pricing : List (String × ℤ)) : String :=
  let parts1 : List String :=
    if 8 ≤ years_gap then ["No major launches for " ++ toString years_gap ++ " years"] else []
  let parts2 := parts1 ++
    (if 50 < recent_activity then
      ["Active resale market (" ++ toString recent_activity ++ " recent transactions)"] else [])
  let parts3 := parts2 ++
    (if ((pricing.lookup "4_room").getD 0) < 400000 then ["Affordable pricing segment"] else [])
  if parts3.isEmpty then "Moderate BTO opportunity" else String.intercalate "; " parts3

/-- The demand score before its `round(_, 2)`:
`min(years_gap / 10.0, 1.0) if years_gap > 0 else 0.5`. -/
def demandRaw (years_gap : ℤ) : ℚ :=
  if 0 < years_gap then min (qdiv (years_gap : ℚ) 10) 1 else mkRat 1 2

/-- The per-candidate body of the `recommend_estates` loop: builds one
recommendation dict from a candidate town summary. -/
def mkRec (df : List Record) (ti : TownStat) : Entry :=
  let town := ti.town
  let pricing := pricingOf df town
  let characteristics := get_town_characteristics df town
  let years_gap := ti.years_since_last_major_launch
  let recent_activity : ℤ := (ti.recent_transactions : ℤ)
  { town := town
    years_since_last_major_launch := years_gap
    demand_score := some (round2 (demandRaw years_gap))
    recent_market_activity := some recent_activity
    predicted_pricing := some pricing
    predicted_4room_bto_price := none
    rationale := rationaleOf years_gap recent_activity pricing
    market_characteristics := some
      { total_transactions := (characteristics.map TownCharacteristics.total_transactions).getD 0
        predominant_flat_types :=
          (((characteristics.map TownCharacteristics.flat_type_mix).getD []).map Prod.fst).take 3 } }

/-- The sort key of the final `recommendations.sort(key=..., reverse=True)`. -/
def recKey (e : Entry) : ℚ × ℤ :=
  (e.demand_score.getD 0, e.years_since_last_major_launch)

/-- Lexicographic order on `(demand_score, years_since_last_major_launch)`. -/
def qlexLE (p q : ℚ × ℤ) : Prop := p.1 < q.1 ∨ (p.1 = q.1 ∧ p.2 ≤ q.2)

instance (p q : ℚ × ℤ) : Decidable (qlexLE p q) :=
  inferInstanceAs (Decidable (p.1 < q.1 ∨ (p.1 = q.1 ∧ p.2 ≤ q.2)))

/-- Entry `a` sorts no later than `b` under the stable descending sort
(`reverse=True`). -/
def recGE (a b : Entry) : Prop := qlexLE (recKey b) (recKey a)

instance : DecidableRel recGE :=
  fun a b => inferInstanceAs (Decidable (qlexLE (recKey b) (recKey a)))

/-- The fallback entry returned when the loaded table is `None`. -/
def dataUnavailableFallback : Entry :=
  { town := "WOODLANDS"
    years_since_last_major_launch := 8
    demand_score := none
    recent_market_activity := none
    predicted_pricing := none
    predicted_4room_bto_price := some 350000
    rationale := "Data unavailable - using fallback estimate"
    market_characteristics := none }

/-- The fallback entry of the outer `except` branch. In this total
embedding no exception can occur during ranking, so this branch is
unreachable; the entry is recorded for completeness. -/
def systemErrorFallback : Entry :=
  { town := "WOODLANDS"
    years_since_last_major_launch := 8
    demand_score := some (4/5)
    recent_market_activity := some 150
    predicted_pricing := some [("3_room", 280000), ("4_room", 350000), ("5_room", 420000)]
    predicted_4room_bto_price := none
    rationale := "Fallback recommendation - system error occurred"
    market_characteristics := some
      { total_transactions := 1000
        predominant_flat_types := ["4 ROOM", "5 ROOM", "3 ROOM"] } }

/-- `recommend_estates`, parameterised by the table the loader returned:
`None` yields the fixed fallback list; otherwise the first 6 candidate
towns are turned into entries, stably sorted by
`(demand_score, years_since_last_major_launch)` descending, and
truncated to 6. -/
def recommend_estates (odf : Option (List Record)) : List Entry :=
  match odf with
  | none => [dataUnavailableFallback]
  | some df =>
    let town_analysis := analyze_bto_gaps df
    let recommendations := (town_analysis.take 6).map (mkRec df)
    (recommendations.insertionSort recGE).take 6

/-- The report dict of `get_town_market_analysis` for a town with data. -/
structure TMAReport where
  town : String
  data_period : String
  total_transactions : ℕ
  flat_types_counts : List (String × ℕ)
  overall_median : ℤ
  recent_median : Option ℤ
  size_distribution : List (String × ℚ)
  lease_oldest : ℤ
  lease_newest : ℤ
deriving DecidableEq, Repr

/-- Result of `get_town_market_analysis`: either an error dict
(`{"error": msg}`) or a full report. -/
inductive TMAResult where
  | err (msg : String) : TMAResult
  | report (rep : TMAReport) : TMAResult
deriving DecidableEq, Repr

/-- The case-insensitive town filter of `get_town_market_analysis`
(`df['town'].str.upper() == town_name.upper()`). -/
def townMatches (df : List Record) (town_name : String) : List Record :=
  df.filter (fun r => strUpper r.town == strUpper town_name)

/-- `get_town_market_analysis`, parameterised by the loaded table. -/
def get_town_market_analysis (odf : Option (List Record)) (town_name : String) : TMAResult :=
  match odf with
  | none => .err "Data not available"
  | some df =>
    let town_data := townMatches df town_name
    if town_data.length = 0 then .err ("No data found for " ++ town_name)
    else
      let recentRows := town_data.filter (fun r => decide (2023 ≤ r.transaction_year))
      .report
        { town := town_name
          data_period := listMin "" (town_data.map Record.month) ++ " to " ++
            listMax "" (town_data.map Record.month)
          total_transactions := town_data.length
          flat_types_counts := valueCounts (town_data.map Record.flat_type)
          overall_median := ratTrunc (median (town_data.map Record.resale_price))
          recent_median :=
            if 0 < recentRows.length then
              some (ratTrunc (median (recentRows.map Record.resale_price)))
            else none
          size_distribution := (flatTypeKeysSorted town_data).map (fun ft =>
            (ft, median ((town_data.filter (fun r => r.flat_type == ft)).map Record.floor_area_sqm)))
          lease_oldest := listMin 0 (town_data.map Record.lease_commence_date)
          lease_newest := listMax 0 (town_data.map Record.lease_commence_date) }

/-- A raw row of the source extract, as it stands after
`pd.read_csv` + `pd.to_datetime(..., errors='coerce')`: the parsed
transaction year is `none` for an unparseable `month`, and nullable
columns are `Option`. -/
structure RawRow where
  month : String
  monthYear : Option ℤ
  town : String
  flat_type : String
  resale_price : Option ℚ
  lease_commence_date : Option ℤ
  floor_area_sqm : ℚ
deriving DecidableEq, Repr

/-- The raw extract: its column set and its rows. -/
structure RawTable where
  columns : List String
  rows : List RawRow
deriving DecidableEq, Repr

/-- The `required_columns` list of `load_resale_data`. -/
def requiredColumns : List String :=
  ["month", "town", "flat_type", "resale_price", "lease_commence_date", "floor_area_sqm"]

/-- The validation and preprocessing stage of `load_resale_data`:
missing required columns raise (modelled as `none`); otherwise rows with
an unparseable date, null price or null lease year are dropped, and rows
with non-positive price are filtered out. -/
def parseTable (rt : RawTable) : Option (List Record) :=
  if requiredColumns.all (fun c => rt.columns.contains c) then
    some (rt.rows.filterMap (fun rr =>
      match rr.monthYear, rr.resale_price, rr.lease_commence_date with
      | some y, some p, some lc =>
        if 0 < p then
          some { month := rr.month, town := rr.town, flat_type := rr.flat_type,
                 resale_price := p, lease_commence_date := lc,
                 floor_area_sqm := rr.floor_area_sqm, transaction_year := y }
        else none
      | _, _, _ => none))
  else none

/-- The mutable state the loader touches: the instance attributes
`_data_cache` and `_cache_timestamp`, and the memo slot of the
`@lru_cache(maxsize=1)` decorator on the method (keyed by the singleton
service instance, hence a single slot). Timestamps are integer seconds. -/
structure CacheState where
  data_cache : Option (List Record)
  cache_timestamp : Option ℤ
  lruMemo : Option (Option (List Record))
deriving DecidableEq, Repr

/-- The TTL constant `self.cache_duration = 3600`. -/
def cache_duration : ℤ := 3600

/-- The staleness check of `load_resale_data`:
`self._data_cache is not None and self._cache_timestamp and
(datetime.now() - self._cache_timestamp).seconds < self.cache_duration`.
`timedelta.seconds` is the seconds component of the normalised delta,
i.e. the difference modulo 86400. -/
def cacheFreshB (st : CacheState) (now : ℤ) : Bool :=
  st.data_cache.isSome &&
    (match st.cache_timestamp with
     | some t => decide ((now - t) % 86400 < cache_duration)
     | none => false)

/-- Whether reading/validating the source would fail: the file is
unreadable (an exception from `pd.read_csv`) or a required column is
missing (the raised `ValueError`). -/
def loadFails (src : Except Unit RawTable) : Bool :=
  match src with
  | .error _ => true
  | .ok rt => (parseTable rt).isNone

/-- The body of `load_resale_data` (the code under the `try`), with the
source read passed in as `src`: a fresh cache is returned as is; an
exception from reading or validating is caught and surfaces as `none`
with the state untouched; a successful parse stores the table and the
current timestamp. -/
def loadBody (st : CacheState) (now : ℤ) (src : Except Unit RawTable) :
    Option (List Record) × CacheState :=
  if cacheFreshB st now then (st.data_cache, st)
  else
    match src with
    | .error _ => (none, st)
    | .ok rt =>
      match parseTable rt with
      | none => (none, st)
      | some df => (some df, { st with data_cache := some df, cache_timestamp := some now })

/-- `load_resale_data` as observed by callers: the
`@lru_cache(maxsize=1)` decorator returns the memoised first result
whenever one exists and otherwise runs the body once and memoises its
result. -/
def load_resale_data (st : CacheState) (now : ℤ) (src : Except Unit RawTable) :
    Option (List Record) × CacheState :=
  match st.lruMemo with
  | some res => (res, st)
  | none =>
    let out := loadBody st now src
    (out.1, { out.2 with lruMemo := some out.1 })

/-! Concrete tables used for counterexamples and witnesses. -/

/-- A 3-room transaction in town `AAA` (old vintage, pre-2022). -/
def cexRecord : Record :=
  { month := "2020-01", town := "AAA", flat_type := "3 ROOM", resale_price := 300000,
    lease_commence_date := 2000, floor_area_sqm := 70, transaction_year := 2020 }

/-- A table whose single town qualifies as a candidate (101 transactions,
25-year gap) but has no 4-room transactions at all. -/
def cexDf : List Record := List.replicate 101 cexRecord

/-- A recent 4-room transaction in town `A`. -/
def wRecordA : Record :=
  { month := "2023-01", town := "A", flat_type := "4 ROOM", resale_price := 500000,
    lease_commence_date := 2000, floor_area_sqm := 90, transaction_year := 2023 }

/-- Twelve recent matching records: tier 1 of the price estimator applies. -/
def wdfA : List Record := List.replicate 12 wRecordA

/-- An old 4-room transaction in town `A`. -/
def wRecordB : Record :=
  { month := "2020-01", town := "A", flat_type := "4 ROOM", resale_price := 400000,
    lease_commence_date := 2000, floor_area_sqm := 90, transaction_year := 2020 }

/-- Three recent plus seventeen old matching records: tier 1 does not
apply (3 < 10) and tier 2 takes the median over all twenty. -/
def wdfB : List Record := List.replicate 3 wRecordA ++ List.replicate 17 wRecordB

/-- A single mixed-case-town record with no recent (2023+) transaction. -/
def wRecordC : Record :=
  { month := "2020-01", town := "TaMpInEs", flat_type := "4 ROOM", resale_price := 450000,
    lease_commence_date := 1995, floor_area_sqm := 95, transaction_year := 2020 }

/-- A one-record table for the market-analysis witness. -/
def wdfC : List Record := [wRecordC]

/-- The rationale of the specification, written from its wording with
the one amendment the code forces: the clauses appear in the fixed order
gap / activity / affordability, the affordability clause fires when the
4-room target price is absent or below 400000 (the code reads the
pricing dict with default 0), and an empty clause list yields the fixed
moderate-opportunity text. -/
def rationaleSpec (years_gap recent_activity : ℤ) (price4 : Option ℤ) : String :=
  let clauses : List String :=
    (if 8 ≤ years_gap then ["No major launches for " ++ toString years_gap ++ " years"] else []) ++
    (if 50 < recent_activity then
      ["Active resale market (" ++ toString recent_activity ++ " recent transactions)"] else []) ++
    (if price4.getD 0 < 400000 then ["Affordable pricing segment"] else [])
  if clauses.isEmpty then "Moderate BTO opportunity" else String.intercalate "; " clauses

/-- Projection of a market-analysis result onto its report, with a
default for the error case. -/
def tmaReportOf (res : TMAResult) (d : TMAReport) : TMAReport :=
  match res with
  | .report r => r
  | .err _ => d

/-- An all-default report used only as the dummy argument of
`tmaReportOf`. -/
def emptyReport : TMAReport :=
  { town := "", data_period := "", total_transactions := 0, flat_types_counts := [],
    overall_median := 0, recent_median := none, size_distribution := [],
    lease_oldest := 0, lease_newest := 0 }

/-- A valid raw row of the source extract. -/
def goodRow1 : RawRow :=
  { month := "2023-01", monthYear := some 2023, town := "A", flat_type := "4 ROOM",
    resale_price := some 500000, lease_commence_date := some 2000, floor_area_sqm := 90 }

/-- A well-formed one-row source extract. -/
def rt1 : RawTable := { columns := requiredColumns, rows := [goodRow1] }

/-- The same raw row with a different price. -/
def goodRow2 : RawRow := { goodRow1 with resale_price := some 600000 }

/-- A second well-formed extract whose contents differ from `rt1`. -/
def rt2 : RawTable := { columns := requiredColumns, rows := [goodRow2] }

/-- The record `rt1` parses to. -/
def rec1 : Record :=
  { month := "2023-01", town := "A", flat_type := "4 ROOM", resale_price := 500000,
    lease_commence_date := 2000, floor_area_sqm := 90, transaction_year := 2023 }

/-- The record `rt2` parses to. -/
def rec2 : Record := { rec1 with resale_price := 600000 }

/-- An extract missing most required columns: loading it raises and is
caught. -/
def badTable : RawTable := { columns := ["month", "town"], rows := [] }

/-- The initial loader state: no cache, no timestamp, no memo. -/
def st0 : CacheState := { data_cache := none, cache_timestamp := none, lruMemo := none }

/-! Identification of the kernel-reducible rational operations with the
standard ones. -/

theorem qadd_eq (a b : ℚ) : qadd a b = a + b := by
  have ha : ((a.den : ℚ)) ≠ 0 := ne_of_gt (by exact_mod_cast a.den_pos)
  have hb : ((b.den : ℚ)) ≠ 0 := ne_of_gt (by exact_mod_cast b.den_pos)
  rw [qadd, Rat.mkRat_eq_div]
  push_cast
  conv_rhs => rw [← Rat.num_div_den a, ← Rat.num_div_den b]
  field_simp

theorem qsub_eq (a b : ℚ) : qsub a b = a - b := by
  have ha : ((a.den : ℚ)) ≠ 0 := ne_of_gt (by exact_mod_cast a.den_pos)
  have hb : ((b.den : ℚ)) ≠ 0 := ne_of_gt (by exact_mod_cast b.den_pos)
  rw [qsub, Rat.mkRat_eq_div]
  push_cast
  conv_rhs => rw [← Rat.num_div_den a, ← Rat.num_div_den b]
  field_simp
  ring

theorem qmul_eq (a b : ℚ) : qmul a b = a * b := by
  have ha : ((a.den : ℚ)) ≠ 0 := ne_of_gt (by exact_mod_cast a.den_pos)
  have hb : ((b.den : ℚ)) ≠ 0 := ne_of_gt (by exact_mod_cast b.den_pos)
  rw [qmul, Rat.mkRat_eq_div]
  push_cast
  conv_rhs => rw [← Rat.num_div_den a, ← Rat.num_div_den b]
  field_simp

theorem qdiv_eq (a b : ℚ) : qdiv a b = a / b := by
  rcases eq_or_ne b 0 with rfl | hb
  · rw [div_zero]
    show mkRat _ (a.den * (0 : ℚ).num.natAbs) = 0
    simp [mkRat]
  · have hbn : (b.num : ℚ) ≠ 0 := Int.cast_ne_zero.mpr (Rat.num_ne_zero.mpr hb)
    have ha : ((a.den : ℚ)) ≠ 0 := ne_of_gt (by exact_mod_cast a.den_pos)
    have hbd : ((b.den : ℚ)) ≠ 0 := ne_of_gt (by exact_mod_cast b.den_pos)
    rcases le_or_lt 0 b.num with h | h
    · have habs : ((b.num.natAbs : ℕ) : ℚ) = (b.num : ℚ) := by
        rw [Int.cast_natAbs]
        exact_mod_cast abs_of_nonneg h
      rw [qdiv, if_pos h, Rat.mkRat_eq_div]
      push_cast [habs]
      conv_rhs => rw [← Rat.num_div_den a, ← Rat.num_div_den b]
      field_simp
    · have habs : ((b.num.natAbs : ℕ) : ℚ) = -(b.num : ℚ) := by
        rw [Int.cast_natAbs]
        exact_mod_cast abs_of_neg h
      rw [qdiv, if_neg (not_le.mpr h), Rat.mkRat_eq_div]
      push_cast [habs]
      conv_rhs => rw [← Rat.num_div_den a, ← Rat.num_div_den b]
      field_simp

theorem qfloor_intCast (m : ℤ) : qfloor ((m : ℤ) : ℚ) = m := by
  simp [qfloor, Rat.intCast_num, Rat.intCast_den, Int.fdiv_one]

theorem roundHalfEven_intCast (m : ℤ) : roundHalfEven ((m : ℤ) : ℚ) = m := by
  have h0 : qsub ((m : ℤ) : ℚ) ((m : ℤ) : ℚ) = 0 := by rw [qsub_eq]; ring
  simp only [roundHalfEven, qfloor_intCast, h0]
  rw [if_pos (by decide : (0 : ℚ) < mkRat 1 2)]

theorem round2_eq_self (x : ℚ) (m : ℤ) (h : x * 100 = ((m : ℤ) : ℚ)) : round2 x = x := by
  rw [round2, qdiv_eq, qmul_eq, h, roundHalfEven_intCast, ← h]
  field_simp

theorem demandRaw_pos (y : ℤ) (h : 0 < y) : demandRaw y = min ((y : ℚ) / 10) 1 := by
  rw [demandRaw, if_pos h, qdiv_eq]

theorem demandRaw_nonpos (y : ℤ) (h : ¬ 0 < y) : demandRaw y = 1 / 2 := by
  rw [demandRaw, if_neg h, Rat.mkRat_eq_div]
  norm_num

theorem round2_demandRaw (y : ℤ) : round2 (demandRaw y) = demandRaw y := by
  by_cases h : 0 < y
  · rw [demandRaw_pos y h]
    by_cases h10 : (y : ℚ) / 10 ≤ 1
    · rw [min_eq_left h10]
      exact round2_eq_self _ (10 * y) (by push_cast; ring)
    · rw [min_eq_right (le_of_not_le h10)]
      exact round2_eq_self _ 100 (by norm_num)
  · rw [demandRaw_nonpos y h]
    exact round2_eq_self _ 50 (by norm_num)

/-! General helper lemmas about the embedded pipeline. -/

/-- The branch structure of `analyze_bto_gaps` collapses to a single
equation: the output is always the first eight sorted qualified rows. -/
theorem analyze_eq (df : List Record) :
    analyze_bto_gaps df = (sortedQualified df).take 8 := by
  by_cases h : df.isEmpty
  · have : df = [] := by cases df with
      | nil => rfl
      | cons a l => simp [List.isEmpty] at h
    subst this; rfl
  · unfold analyze_bto_gaps
    rw [if_neg h]

/-- Unfolding equation of `recommend_estates` on a present table. -/
theorem recommend_some_eq (df : List Record) :
    recommend_estates (some df) =
      ((((analyze_bto_gaps df).take 6).map (mkRec df)).insertionSort recGE).take 6 := rfl

/-- Every returned recommendation is the entry built from one of the
first six candidate summaries. -/
theorem mem_recommend_cases {df : List Record} {e : Entry}
    (h : e ∈ recommend_estates (some df)) :
    ∃ ti ∈ (analyze_bto_gaps df).take 6, e = mkRec df ti := by
  rw [recommend_some_eq] at h
  have h1 := List.take_subset 6 _ h
  rw [List.mem_insertionSort] at h1
  obtain ⟨ti, hti, hmk⟩ := List.mem_map.mp h1
  exact ⟨ti, hti, hmk.symm⟩

/-- The tier-1 subset refines the tier-2 subset by one more filter. -/
theorem recentMatches_eq_filter (df : List Record) (town ft : String) :
    recentMatches df town ft =
      (allMatches df town ft).filter (fun r => decide (2022 ≤ r.transaction_year)) := by
  unfold recentMatches allMatches
  rw [List.filter_filter]
  refine List.filter_congr ?_
  intro a _
  cases a.town == town <;> cases a.flat_type == ft <;>
    cases decide (2022 ≤ a.transaction_year) <;> rfl

/-- C1 (amended): the recommendation list never exceeds six entries, and
an unavailable table yields exactly the fixed single-element fallback
list with the placeholder town `WOODLANDS` and the explicit fallback
rationale. (The original claim's non-emptiness on every table fails: a
table with no qualifying town yields the empty list, see the
counterexample.) -/
theorem c1_recommend_length_and_fallback (odf : Option (List Record)) :
    (recommend_estates odf).length ≤ 6
  ∧ recommend_estates none = [dataUnavailableFallback]
  ∧ dataUnavailableFallback.town = "WOODLANDS"
  ∧ dataUnavailableFallback.rationale = "Data unavailable - using fallback estimate" := by
  refine ⟨?_, rfl, rfl, rfl⟩
  cases odf with
  | none => simp [recommend_estates]
  | some df =>
    rw [recommend_some_eq]
    exact List.length_take_le 6 _

/-- C1 counterexample: on the empty table `recommend_estates` returns
the empty list, refuting the claim that the result is non-empty for
every input table. -/
theorem c1_empty_table_counterexample :
    recommend_estates (some ([] : List Record)) = [] := rfl

/-- C2: the price estimator returns the median over the recent matching
subset whenever that subset has at least 10 records, the median over all
matching records exactly when the recent subset is smaller but a match
exists, and `none` exactly when no record matches at all. -/
theorem c2_pricing_tiers (df : List Record) (town ft : String) :
    (10 ≤ (recentMatches df town ft).length →
      calculate_single_pricing df town ft =
        some (median ((recentMatches df town ft).map Record.resale_price)))
  ∧ ((recentMatches df town ft).length < 10 → allMatches df town ft ≠ [] →
      calculate_single_pricing df town ft =
        some (median ((allMatches df town ft).map Record.resale_price)))
  ∧ (calculate_single_pricing df town ft = none ↔ allMatches df town ft = []) := by
  refine ⟨?_, ?_, ?_, ?_⟩
  · intro h
    unfold calculate_single_pricing
    rw [if_pos h]
  · intro h hne
    unfold calculate_single_pricing
    rw [if_neg (by omega), if_pos (List.length_pos.mpr hne)]
  · intro h
    unfold calculate_single_pricing at h
    by_cases h10 : 10 ≤ (recentMatches df town ft).length
    · rw [if_pos h10] at h; exact absurd h (by simp)
    · rw [if_neg h10] at h
      by_cases hall : 0 < (allMatches df town ft).length
      · rw [if_pos hall] at h; exact absurd h (by simp)
      · exact List.length_eq_zero.mp (by omega)
  · intro h
    have hrec : recentMatches df town ft = [] := by
      rw [recentMatches_eq_filter, h]; rfl
    unfold calculate_single_pricing
    rw [hrec, h]
    rfl

/-- C2 witness: twelve recent records give the tier-1 median; three
recent plus seventeen old records give the tier-2 median over all
twenty; an empty table gives `none`. -/
theorem c2_pricing_tiers_witness :
    calculate_single_pricing wdfA "A" "4 ROOM" = some 500000
  ∧ calculate_single_pricing wdfB "A" "4 ROOM" = some 400000
  ∧ calculate_single_pricing [] "A" "4 ROOM" = none :=
  ⟨((c2_pricing_tiers wdfA "A" "4 ROOM").1 (by decide)).trans (by decide),
   ((c2_pricing_tiers wdfB "A" "4 ROOM").2.1 (by decide) (by decide)).trans (by decide),
   (c2_pricing_tiers [] "A" "4 ROOM").2.2.mpr rfl⟩

/-- C3: a summary appears in `analyze_bto_gaps` exactly when its town
has strictly more than 100 transactions, a gap of at least 5 years, and
falls within the first eight rows of the sorted qualified list; at most
eight summaries are returned, and the empty table yields the empty list
rather than an error. -/
theorem c3_gap_candidates (df : List Record) :
    (∀ s : TownStat, s ∈ analyze_bto_gaps df ↔
      (100 < s.total_transactions ∧
        MIN_YEARS_SINCE_LAUNCH ≤ s.years_since_last_major_launch ∧
        s ∈ (sortedQualified df).take 8))
  ∧ (analyze_bto_gaps df).length ≤ 8
  ∧ analyze_bto_gaps ([] : List Record) = [] := by
  refine ⟨?_, ?_, rfl⟩
  · intro s
    rw [analyze_eq]
    constructor
    · intro h
      have h2 : s ∈ sortedQualified df := List.take_subset 8 _ h
      simp only [sortedQualified] at h2
      have h3 : s ∈ qualified_towns df := (List.mem_insertionSort statGE).mp h2
      have h4 := (List.mem_filter.mp h3).2
      simp only [Bool.and_eq_true, decide_eq_true_eq] at h4
      exact ⟨h4.1, h4.2, h⟩
    · rintro ⟨-, -, h⟩
      exact h
  · rw [analyze_eq]
    exact List.length_take_le 8 _

/-- C3 witness: the single candidate of the concrete table `cexDf`
satisfies both filter thresholds and lies in the first eight sorted
qualified rows. -/
theorem c3_gap_candidates_witness :
    100 < ((analyze_bto_gaps cexDf).headD (summarize cexDf "AAA")).total_transactions
  ∧ MIN_YEARS_SINCE_LAUNCH ≤
      ((analyze_bto_gaps cexDf).headD (summarize cexDf "AAA")).years_since_last_major_launch
  ∧ ((analyze_bto_gaps cexDf).headD (summarize cexDf "AAA")) ∈ (sortedQualified cexDf).take 8 :=
  ((c3_gap_candidates cexDf).1 _).mp (by decide)

/-- C4: the gap-analysis output is sorted non-increasingly by the
lexicographic key (years since launch, recent transaction count), it is
the eight-row prefix of the stably sorted qualified list, and that
stable sort leaves the relative order of equal-key rows exactly as in
the pre-sort (groupby-ordered) qualified list. -/
theorem c4_sorted_stable (df : List Record) :
    List.Sorted statGE (analyze_bto_gaps df)
  ∧ analyze_bto_gaps df = (sortedQualified df).take 8
  ∧ ∀ k : ℤ × ℤ,
      (sortedQualified df).filter (fun s => decide (statKey s = k)) =
        (qualified_towns df).filter (fun s => decide (statKey s = k)) := by
  refine ⟨?_, analyze_eq df, ?_⟩
  · rw [analyze_eq]
    exact List.Pairwise.sublist (List.take_sublist 8 _) (List.sorted_insertionSort statGE _)
  · intro k
    have hmem : ∀ s ∈ (qualified_towns df).filter (fun s => decide (statKey s = k)),
        statKey s = k := by
      intro s hs
      exact decide_eq_true_iff.mp (List.mem_filter.mp hs).2
    have hpw : ((qualified_towns df).filter (fun s => decide (statKey s = k))).Pairwise statGE := by
      refine List.pairwise_of_forall_mem_list ?_
      intro a ha b hb
      have h1 := hmem a ha
      have h2 := hmem b hb
      unfold statGE lexLE
      rw [h1, h2]
      omega
    have hsub : List.Sublist ((qualified_towns df).filter (fun s => decide (statKey s = k)))
        (sortedQualified df) :=
      List.sublist_insertionSort hpw (List.filter_sublist _)
    have hidem : ∀ l : List TownStat,
        (l.filter (fun s => decide (statKey s = k))).filter (fun s => decide (statKey s = k)) =
          l.filter (fun s => decide (statKey s = k)) := by
      intro l
      rw [List.filter_filter]
      exact List.filter_congr (fun a _ => by cases decide (statKey a = k) <;> rfl)
    have hsub2 : List.Sublist ((qualified_towns df).filter (fun s => decide (statKey s = k)))
        ((sortedQualified df).filter (fun s => decide (statKey s = k))) := by
      have h3 := List.Sublist.filter (fun s => decide (statKey s = k)) hsub
      rwa [hidem] at h3
    have hperm := List.Perm.filter (fun s => decide (statKey s = k))
      (List.perm_insertionSort statGE (qualified_towns df))
    exact (List.Sublist.eq_of_length hsub2 hperm.length_eq.symm).symm

/-- C5 (amended): every recommendation entry's rationale is exactly the
'; '-joined clause list in the fixed order, where the gap clause fires
at `years_since_launch ≥ 8`, the activity clause at
`recent_activity > 50`, and the affordability clause when the 4-room
target price is absent or below 400000 (not only when present and below
400000, which the counterexample refutes); in particular at gap 9,
activity 60 and 4-room price 380000 the rationale is the exact
three-clause string. -/
theorem c5_rationale_amended :
    (∀ (df : List Record) (e : Entry), e ∈ recommend_estates (some df) →
      e.rationale = rationaleSpec e.years_since_last_major_launch
        (e.recent_market_activity.getD 0) ((e.predicted_pricing.getD []).lookup "4_room"))
  ∧ rationaleOf 9 60 [("4_room", 380000)] =
      "No major launches for 9 years; Active resale market (60 recent transactions); Affordable pricing segment" := by
  constructor
  · intro df e he
    obtain ⟨ti, _, rfl⟩ := mem_recommend_cases he
    rfl
  · decide

/-- C5 counterexample: on `cexDf` the single recommendation has no
4-room price in its pricing mapping, yet its rationale carries the
"Affordable pricing segment" clause — refuting the claim that the
clause requires a present 4-room price below 400000. -/
theorem c5_missing_price_counterexample :
    ((recommend_estates (some cexDf)).headD dataUnavailableFallback) ∈
      recommend_estates (some cexDf)
  ∧ (((recommend_estates (some cexDf)).headD dataUnavailableFallback).predicted_pricing.getD
      []).lookup "4_room" = none
  ∧ ((recommend_estates (some cexDf)).headD dataUnavailableFallback).rationale =
      "No major launches for 25 years; Affordable pricing segment" := by decide

/-- C5 witness: the amended clause law applied to the concrete entry of
`cexDf`. -/
theorem c5_rationale_amended_witness :
    ((recommend_estates (some cexDf)).headD dataUnavailableFallback).rationale =
      rationaleSpec 25 0 none :=
  (c5_rationale_amended.1 cexDf _ (by decide)).trans (by decide)

/-- C9: every recommendation entry's demand score is
`min(years_since_launch / 10, 1)` for a positive gap and `0.5`
otherwise (the stored `round(_, 2)` is exact on these values); the
score always lies in `[0, 1]`, and it is monotone in the gap length on
positive gaps. -/
theorem c9_demand_score :
    (∀ (df : List Record) (e : Entry), e ∈ recommend_estates (some df) →
      e.demand_score = some (demandRaw e.years_since_last_major_launch))
  ∧ (∀ y : ℤ, 0 < y → demandRaw y = min ((y : ℚ) / 10) 1)
  ∧ (∀ y : ℤ, y ≤ 0 → demandRaw y = 1 / 2)
  ∧ (∀ y : ℤ, 0 ≤ demandRaw y ∧ demandRaw y ≤ 1)
  ∧ (∀ y₁ y₂ : ℤ, 0 < y₁ → y₁ ≤ y₂ → demandRaw y₁ ≤ demandRaw y₂) := by
  refine ⟨?_, fun y h => demandRaw_pos y h, fun y h => demandRaw_nonpos y (not_lt.mpr h), ?_, ?_⟩
  · intro df e he
    obtain ⟨ti, _, rfl⟩ := mem_recommend_cases he
    show some (round2 (demandRaw ti.years_since_last_major_launch)) = _
    rw [round2_demandRaw]
    rfl
  · intro y
    by_cases h : 0 < y
    · rw [demandRaw_pos y h]
      exact ⟨le_min (div_nonneg (by exact_mod_cast h.le) (by norm_num)) (by norm_num),
        min_le_right _ _⟩
    · rw [demandRaw_nonpos y h]
      norm_num
  · intro y₁ y₂ h1 h2
    rw [demandRaw_pos y₁ h1, demandRaw_pos y₂ (lt_of_lt_of_le h1 h2)]
    have hc : (y₁ : ℚ) ≤ (y₂ : ℚ) := by exact_mod_cast h2
    exact min_le_min (by linarith) le_rfl

/-- C9 witness: the demand-score law applied at the concrete entry of
`cexDf` (gap 25), the closed form at gap 9, and monotonicity between
gaps 5 and 7. -/
theorem c9_demand_score_witness :
    ((recommend_estates (some cexDf)).headD dataUnavailableFallback).demand_score =
      some (demandRaw 25)
  ∧ demandRaw 9 = min (((9 : ℤ) : ℚ) / 10) 1
  ∧ demandRaw 5 ≤ demandRaw 7 :=
  ⟨(c9_demand_score.1 cexDf _ (by decide)).trans (by decide),
   c9_demand_score.2.1 9 (by decide),
   c9_demand_score.2.2.2.2 5 7 (by decide) (by decide)⟩

/-- A lookup misses every entry whose key differs from the requested
one. -/
theorem lookup_eq_none_of_keys (k : String) (l : List (String × ℤ))
    (h : ∀ kv ∈ l, kv.1 ≠ k) : l.lookup k = none := by
  induction l with
  | nil => rfl
  | cons kv rest ih =>
    obtain ⟨k1, v1⟩ := kv
    have hk : k1 ≠ k := h (k1, v1) (List.mem_cons_self _ _)
    have hbeq : (k == k1) = false := beq_eq_false_iff_ne.mpr (fun he => hk he.symm)
    simp only [List.lookup, hbeq]
    exact ih (fun kv2 h2 => h kv2 (List.mem_cons_of_mem _ h2))

/-- Looking up the key of an element in a keyed `filterMap` with
injective keys returns exactly that element's (optional) value. -/
theorem lookup_filterMap_of_keys (f : String → Option (String × ℤ)) (key : String → String)
    (hf : ∀ x kv, f x = some kv → kv.1 = key x) (l : List String) :
    ∀ ft : String, ft ∈ l → (∀ x ∈ l, key x = key ft → x = ft) →
      (List.filterMap f l).lookup (key ft) = (f ft).map Prod.snd := by
  induction l with
  | nil => intro ft hmem; cases hmem
  | cons x xs ih =>
    intro ft hmem hinj
    by_cases hxft : x = ft
    · subst hxft
      cases hfx : f x with
      | none =>
        rw [List.filterMap_cons_none hfx]
        apply lookup_eq_none_of_keys
        intro kv hkv hkk
        obtain ⟨y, hy, hfy⟩ := List.mem_filterMap.mp hkv
        have hxy : y = x := hinj y (List.mem_cons_of_mem _ hy) (by rw [← hf y kv hfy, hkk])
        rw [hxy, hfx] at hfy
        cases hfy
      | some kv =>
        obtain ⟨k1, v1⟩ := kv
        rw [List.filterMap_cons_some hfx]
        have hkey : k1 = key x := hf x (k1, v1) hfx
        simp [List.lookup, hkey]
    · have hmem2 : ft ∈ xs := by
        rcases List.mem_cons.mp hmem with rfl | h2
        · exact absurd rfl hxft
        · exact h2
      have hinj2 : ∀ y ∈ xs, key y = key ft → y = ft :=
        fun y hy he => hinj y (List.mem_cons_of_mem _ hy) he
      have hkne : key x ≠ key ft := fun he => hxft (hinj x (List.mem_cons_self _ _) he)
      cases hfx : f x with
      | none =>
        rw [List.filterMap_cons_none hfx]
        exact ih ft hmem2 hinj2
      | some kv =>
        rw [List.filterMap_cons_some hfx]
        have hbeq : (key ft == kv.1) = false := by
          rw [hf x kv hfx]
          exact beq_eq_false_iff_ne.mpr (fun he => hkne he.symm)
        simp only [List.lookup, hbeq]
        exact ih ft hmem2 hinj2

/-- C10: a unit type is missing from the pricing mapping exactly when
its estimate is falsy — `none` or exactly `0` (so a zero median is
indistinguishable from "no estimate" at this interface); every present
price is `round(estimate * (1 - BTO_DISCOUNT_RATE))` under the
lower-cased, underscore-joined key; and every pair of the mapping arises
this way from a truthy estimate. -/
theorem c10_pricing_truthiness (df : List Record) (town ft : String) (hft : ft ∈ flat_types) :
    ((pricingOf df town).lookup (flatKey ft) = none ↔
      (calculate_single_pricing df town ft = none ∨ calculate_single_pricing df town ft = some 0))
  ∧ (∀ p : ℚ, calculate_single_pricing df town ft = some p → p ≠ 0 →
      (pricingOf df town).lookup (flatKey ft) =
        some (roundHalfEven (p * (1 - BTO_DISCOUNT_RATE))))
  ∧ (∀ k v, (k, v) ∈ pricingOf df town → ∃ ft2 ∈ flat_types, ∃ p : ℚ,
      k = flatKey ft2 ∧ calculate_single_pricing df town ft2 = some p ∧ p ≠ 0 ∧
        v = roundHalfEven (p * (1 - BTO_DISCOUNT_RATE)))
  ∧ flatKey "3 ROOM" = "3_room" ∧ flatKey "4 ROOM" = "4_room" ∧ flatKey "5 ROOM" = "5_room" := by
  have hf : ∀ x kv,
      (match calculate_single_pricing df town x with
       | some p => if p ≠ 0 then
            some (flatKey x, roundHalfEven (qmul p (qsub 1 BTO_DISCOUNT_RATE))) else none
       | none => none) = some kv → kv.1 = flatKey x := by
    intro x kv hkv
    cases hx : calculate_single_pricing df town x with
    | none => rw [hx] at hkv; cases hkv
    | some p =>
      rw [hx] at hkv
      by_cases hp : p = 0
      · simp [hp] at hkv
      · simp only [if_pos hp] at hkv
        injection hkv with h
        rw [← h]
  have hinj : ∀ x ∈ flat_types, flatKey x = flatKey ft → x = ft := by
    have hft2 := hft
    simp only [flat_types, List.mem_cons, List.not_mem_nil, or_false] at hft2
    rcases hft2 with rfl | rfl | rfl <;> decide
  have hmaster : (pricingOf df town).lookup (flatKey ft) =
      (match calculate_single_pricing df town ft with
       | some p => if p ≠ 0 then
            some (flatKey ft, roundHalfEven (qmul p (qsub 1 BTO_DISCOUNT_RATE))) else none
       | none => none).map Prod.snd :=
    lookup_filterMap_of_keys _ flatKey hf flat_types ft hft hinj
  refine ⟨?_, ?_, ?_, rfl, rfl, rfl⟩
  · rw [hmaster]
    cases hc : calculate_single_pricing df town ft with
    | none => simp
    | some p =>
      by_cases hp : p = 0
      · simp [hp]
      · simp [hp]
  · intro p hp hpne
    rw [hmaster, hp]
    simp only [if_pos hpne]
    rw [qmul_eq, qsub_eq]
    rfl
  · intro k v hkv
    obtain ⟨ft2, hft2, hf2⟩ := List.mem_filterMap.mp hkv
    cases hc : calculate_single_pricing df town ft2 with
    | none => rw [hc] at hf2; cases hf2
    | some p =>
      rw [hc] at hf2
      by_cases hp : p = 0
      · simp [hp] at hf2
      · simp only [if_pos hp] at hf2
        injection hf2 with h2
        injection h2 with hk hv
        subst hk
        subst hv
        exact ⟨ft2, hft2, p, rfl, hc, hp, by rw [qmul_eq, qsub_eq]⟩

/-- C10 witness: on the concrete table `wdfA` the 3-room estimate is
absent so its key is missing, while the 4-room estimate 500000 appears
discounted and rounded under the key derived from the unit type. -/
theorem c10_pricing_truthiness_witness :
    (pricingOf wdfA "A").lookup (flatKey "3 ROOM") = none
  ∧ (pricingOf wdfA "A").lookup (flatKey "4 ROOM") =
      some (roundHalfEven (500000 * (1 - BTO_DISCOUNT_RATE))) :=
  ⟨(c10_pricing_truthiness wdfA "A" "3 ROOM" (by decide)).1.mpr (Or.inl (by decide)),
   (c10_pricing_truthiness wdfA "A" "4 ROOM" (by decide)).2.1 500000 (by decide) (by decide)⟩

/-- With a fresh cache the loader body returns the cached table and the
unchanged state. -/
theorem loadBody_fresh (st : CacheState) (now : ℤ) (src : Except Unit RawTable)
    (h : cacheFreshB st now = true) : loadBody st now src = (st.data_cache, st) := by
  unfold loadBody
  rw [h]
  rfl

/-- Without a fresh cache, an unreadable source leaves the body with
`none` and the unchanged state. -/
theorem loadBody_err (st : CacheState) (now : ℤ) (e : Unit)
    (h : cacheFreshB st now = false) : loadBody st now (Except.error e) = (none, st) := by
  unfold loadBody
  rw [h]
  rfl

/-- Without a fresh cache, a readable source reduces the body to the
parse outcome. -/
theorem loadBody_ok (st : CacheState) (now : ℤ) (rt : RawTable)
    (h : cacheFreshB st now = false) :
    loadBody st now (Except.ok rt) =
      (match parseTable rt with
       | none => (none, st)
       | some df => (some df, { st with data_cache := some df, cache_timestamp := some now })) := by
  unfold loadBody
  rw [h]
  rfl

/-- C8: the market analysis matches the requested town case
insensitively (names equal up to upper-casing select the same rows);
zero matching rows yield exactly the not-found error result rather than
an empty report; and a returned report's recent median is absent exactly
when no matching row has `transaction_year ≥ 2023`. -/
theorem c8_market_analysis (df : List Record) (n1 n2 : String) :
    (strUpper n1 = strUpper n2 → townMatches df n1 = townMatches df n2)
  ∧ (townMatches df n1 = [] ↔
      get_town_market_analysis (some df) n1 = .err ("No data found for " ++ n1))
  ∧ (∀ rep : TMAReport, get_town_market_analysis (some df) n1 = .report rep →
      (rep.recent_median = none ↔
        (townMatches df n1).filter (fun r => decide (2023 ≤ r.transaction_year)) = [])) := by
  refine ⟨?_, ?_, ?_⟩
  · intro h
    unfold townMatches
    exact List.filter_congr (fun r _ => by rw [h])
  · constructor
    · intro h
      simp [get_town_market_analysis, h]
    · intro h
      by_cases hlen : (townMatches df n1).length = 0
      · exact List.length_eq_zero.mp hlen
      · exfalso
        simp only [get_town_market_analysis] at h
        rw [if_neg hlen] at h
        cases h
  · intro rep hrep
    simp only [get_town_market_analysis] at hrep
    by_cases hlen : (townMatches df n1).length = 0
    · rw [if_pos hlen] at hrep
      cases hrep
    · rw [if_neg hlen] at hrep
      injection hrep with h2
      subst h2
      by_cases hr : 0 <
          ((townMatches df n1).filter (fun r => decide (2023 ≤ r.transaction_year))).length
      · show (if 0 < _ then some _ else none) = none ↔ _
        rw [if_pos hr]
        constructor
        · intro h0; cases h0
        · intro h0
          rw [h0] at hr
          simp at hr
      · show (if 0 < _ then some _ else none) = none ↔ _
        rw [if_neg hr]
        constructor
        · intro _
          exact List.length_eq_zero.mp (by omega)
        · intro _
          rfl

/-- C8 witness: on the one-row table `wdfC` (town `TaMpInEs`, year
2020), differently cased requests select the same rows, an unknown town
yields the not-found error, and the returned report has no recent
median. -/
theorem c8_market_analysis_witness :
    townMatches wdfC "tampines" = townMatches wdfC "TAMPINES"
  ∧ get_town_market_analysis (some wdfC) "zzz" = .err ("No data found for " ++ "zzz")
  ∧ (tmaReportOf (get_town_market_analysis (some wdfC) "TAMPINES") emptyReport).recent_median
      = none := by
  refine ⟨?_, ?_, ?_⟩
  · exact (c8_market_analysis wdfC "tampines" "TAMPINES").1 (by decide)
  · exact (c8_market_analysis wdfC "zzz" "x").2.1.mp (by decide)
  · exact ((c8_market_analysis wdfC "TAMPINES" "x").2.2
      (tmaReportOf (get_town_market_analysis (some wdfC) "TAMPINES") emptyReport)
      (by decide)).mpr (by decide)

/-- C6: the claim that a call after the TTL has elapsed re-reads the
source is contradicted by the code: the `lru_cache` memo returns the
first call's table unchanged on the second call made 10000 seconds
later (TTL 3600), even though a fresh reload would produce a different
table. -/
theorem c6_stale_cache_returned :
    (load_resale_data st0 0 (Except.ok rt1)).1 = some [rec1]
  ∧ cache_duration ≤ (10000 : ℤ) - 0
  ∧ (load_resale_data (load_resale_data st0 0 (Except.ok rt1)).2 10000 (Except.ok rt2)).1 =
      some [rec1]
  ∧ parseTable rt2 = some [rec2]
  ∧ some [rec2] ≠ some [rec1] := by decide

/-- C7: when the loader body actually attempts a reload (no memo hit, no
fresh cache) and that load fails — unreadable source or missing required
columns — the call returns `none` and leaves both the cached table and
the cache timestamp untouched; and whenever the timestamp does change,
the call was a successful reload that stored the parsed table and the
current time. -/
theorem c7_load_failure_state (st : CacheState) (now : ℤ) (src : Except Unit RawTable) :
    ((st.lruMemo = none ∧ cacheFreshB st now = false ∧ loadFails src = true) →
      ((load_resale_data st now src).1 = none ∧
       (load_resale_data st now src).2.data_cache = st.data_cache ∧
       (load_resale_data st now src).2.cache_timestamp = st.cache_timestamp))
  ∧ ((load_resale_data st now src).2.cache_timestamp ≠ st.cache_timestamp →
      ∃ df, (load_resale_data st now src).1 = some df ∧
        (load_resale_data st now src).2.data_cache = some df ∧
        (load_resale_data st now src).2.cache_timestamp = some now) := by
  cases hm : st.lruMemo with
  | some res =>
    constructor
    · rintro ⟨h1, -, -⟩
      cases h1
    · intro hts
      exfalso
      apply hts
      simp [load_resale_data, hm]
  | none =>
    simp only [load_resale_data, hm]
    by_cases hfr : cacheFreshB st now = true
    · rw [loadBody_fresh st now src hfr]
      constructor
      · rintro ⟨-, h2, -⟩
        rw [hfr] at h2
        cases h2
      · intro hts
        exact absurd rfl hts
    · have hfr2 : cacheFreshB st now = false := by
        revert hfr
        cases cacheFreshB st now <;> simp
      cases src with
      | error e =>
        rw [loadBody_err st now e hfr2]
        constructor
        · intro _
          exact ⟨rfl, rfl, rfl⟩
        · intro hts
          exact absurd rfl hts
      | ok rt =>
        rw [loadBody_ok st now rt hfr2]
        cases hp : parseTable rt with
        | none =>
          constructor
          · intro _
            exact ⟨rfl, rfl, rfl⟩
          · intro hts
            exact absurd rfl hts
        | some dfp =>
          constructor
          · rintro ⟨-, -, h3⟩
            simp [loadFails, hp] at h3
          · intro _
            exact ⟨dfp, rfl, rfl, rfl⟩

/-- C7 witness: from the initial state, loading an extract with missing
columns returns `none` and leaves the (empty) cache state untouched,
while loading a valid extract at time 5 stores the parsed table with
timestamp 5. -/
theorem c7_load_failure_state_witness :
    (load_resale_data st0 0 (Except.ok badTable)).1 = none
  ∧ (load_resale_data st0 0 (Except.ok badTable)).2.data_cache = st0.data_cache
  ∧ (load_resale_data st0 0 (Except.ok badTable)).2.cache_timestamp = st0.cache_timestamp
  ∧ ∃ df, (load_resale_data st0 5 (Except.ok rt1)).1 = some df ∧
      (load_resale_data st0 5 (Except.ok rt1)).2.data_cache = some df ∧
      (load_resale_data st0 5 (Except.ok rt1)).2.cache_timestamp = some 5 := by
  have hfail := (c7_load_failure_state st0 0 (Except.ok badTable)).1 ⟨rfl, rfl, by decide⟩
  have hsucc := (c7_load_failure_state st0 5 (Except.ok rt1)).2 (by decide)
  exact ⟨hfail.1, hfail.2.1, hfail.2.2, hsucc⟩

end BTO
